import Mathlib

/-!
Verification of the spark-sdk reconciliation core.

This file shallowly embeds the transfer-to-payment reconciliation code
(`crates/breez-sdk/core/src/models/adaptors.rs`) and the sync coordinator
(`crates/breez-sdk/core/src/sdk/sync_coordinator.rs`) and proves the spec
claims about them.

Conventions of the embedding:
- Rust `u64`/`u128` amounts become `Nat`; `saturating_sub` on `u64` is `Nat`
  subtraction (both saturate at zero); `saturating_add` is capped at `2^64-1`.
- Rust `SystemTime` values become `Int` seconds since the Unix epoch
  (negative = before the epoch). `duration_since(UNIX_EPOCH)` succeeds exactly
  when the value is nonnegative, yielding `Int.toNat`.
- External pure parsers from `breez_sdk_common::input` (`parse_invoice`,
  `parse_spark_address`) are parameters of the embedding (`ParseEnv`), since
  their code is outside this repository; the claims hold for every parser.
- External data types from the `spark_wallet` crate (`WalletTransfer`,
  `PreimageRequest`, statuses, ...) are modelled with exactly the fields and
  variants the embedded code reads; transfer statuses not distinguished by any
  match in the embedded code are collapsed into one `otherPending` variant
  (every such variant flows through the same wildcard arms).
-/

namespace SparkSdk

/-- Error type; the embedded code only ever constructs `SdkError::Generic(msg)`. -/
inductive SdkError where
  | generic (msg : String)
deriving DecidableEq, Repr

/-- Core-owned `SparkHtlcStatus`. -/
inductive SparkHtlcStatus where
  | waitingForPreimage
  | preimageShared
  | returned
deriving DecidableEq, Repr

/-- Core-owned `SparkHtlcDetails`. -/
structure SparkHtlcDetails where
  payment_hash : String
  preimage : Option String
  expiry_time : Nat
  status : SparkHtlcStatus
deriving DecidableEq, Repr

/-- External `spark_wallet::PreimageRequestStatus`. -/
inductive PreimageRequestStatus where
  | waitingForPreimage
  | preimageShared
  | returned
deriving DecidableEq, Repr

/-- External `spark_wallet::PreimageRequest`. The preimage is carried already
hex-encoded (the source applies `encode_hex()` on conversion). -/
structure PreimageRequest where
  payment_hash : String
  preimage : Option String
  expiry_time : Int
  status : PreimageRequestStatus
deriving DecidableEq, Repr

/-- External `spark_wallet::TransferStatus`. Variants not named in any match arm of the
embedded code are collapsed into `otherPending`. -/
inductive TransferStatus where
  | senderKeyTweaked
  | completed
  | expired
  | returned
  | otherPending
deriving DecidableEq, Repr

/-- External `spark_wallet::TransferDirection`. -/
inductive TransferDirection where
  | incoming
  | outgoing
deriving DecidableEq, Repr

/-- External `spark_wallet::TransferType`. -/
inductive TransferType where
  | transfer
  | preimageSwap
  | cooperativeExit
  | utxoSwap
  | counterSwap
  | counterSwapV3
  | swap
  | primarySwapV3
deriving DecidableEq, Repr

/-- The invoice object embedded in a Lightning receive request. -/
structure SspInvoice where
  encoded_invoice : String
  payment_hash : String
deriving DecidableEq, Repr

/-- External `LightningReceiveRequest` SSP user-intent record. -/
structure LightningReceiveRequest where
  invoice : SspInvoice
  lightning_receive_payment_preimage : Option String
deriving DecidableEq, Repr

/-- External `LightningSendRequest` SSP user-intent record; `fee` models the result of
`fee.as_sats()` on the SSP fee object. -/
structure LightningSendRequest where
  encoded_invoice : String
  lightning_send_payment_preimage : Option String
  fee : Option Nat
deriving DecidableEq, Repr

/-- External `CoopExitRequest` SSP user-intent record; fee fields model `as_sats()`. -/
structure CoopExitRequest where
  coop_exit_txid : String
  fee : Option Nat
  l1_broadcast_fee : Option Nat
deriving DecidableEq, Repr

/-- External `ClaimStaticDeposit` SSP user-intent record; amounts model `as_sats()`. -/
structure ClaimStaticDeposit where
  transaction_id : String
  deposit_amount : Option Nat
  credit_amount : Option Nat
deriving DecidableEq, Repr

/-- External `spark_wallet::SspUserRequest`. -/
inductive SspUserRequest where
  | lightningReceiveRequest (r : LightningReceiveRequest)
  | lightningSendRequest (r : LightningSendRequest)
  | coopExitRequest (r : CoopExitRequest)
  | leavesSwapRequest
  | claimStaticDeposit (r : ClaimStaticDeposit)
deriving DecidableEq, Repr

/-- External `spark_wallet::WalletTransfer`, restricted to the fields the embedded code
reads. Times are `Int` seconds since the Unix epoch. -/
structure WalletTransfer where
  id : String
  direction : TransferDirection
  status : TransferStatus
  transfer_type : TransferType
  total_value_sat : Nat
  created_at : Option Int
  expiry_time : Option Int
  user_request : Option SspUserRequest
  spark_invoice : Option String
  htlc_preimage_request : Option PreimageRequest
  is_ssp_transfer : Bool
deriving DecidableEq, Repr

/-- Result type of `breez_sdk_common::input::parse_invoice`, restricted to the
fields the embedded code reads. -/
structure InvoiceDetails where
  description : Option String
  payee_pubkey : String
  payment_hash : String
deriving DecidableEq, Repr

/-- The `SparkInvoiceDetails` payload of a successful
`parse_spark_address` returning `InputType::SparkInvoice`. -/
structure SparkInvoiceDetails where
  description : Option String
  invoice : String
deriving DecidableEq, Repr

/-- External parsers from `breez_sdk_common::input`, outside this repository,
taken as parameters of the embedding. `parse_spark_address` models the
`Some(InputType::SparkInvoice(d))` outcome; any other outcome is `none`. -/
structure ParseEnv where
  parse_invoice : String → Option InvoiceDetails
  parse_spark_address : String → Option SparkInvoiceDetails

/-- Core-owned `PaymentType`. -/
inductive PaymentType where
  | send
  | receive
deriving DecidableEq, Repr

/-- Core-owned `PaymentStatus`. -/
inductive PaymentStatus where
  | pending
  | completed
  | failed
deriving DecidableEq, Repr

/-- Core-owned `PaymentMethod`. -/
inductive PaymentMethod where
  | lightning
  | spark
  | withdraw
  | deposit
  | unknown
deriving DecidableEq, Repr

/-- Core-owned `SparkInvoicePaymentDetails`. -/
structure SparkInvoicePaymentDetails where
  description : Option String
  invoice : String
deriving DecidableEq, Repr

/-- Core-owned `PaymentDetails`, restricted to the fields the embedded code
writes with data (the `lnurl_*` and `conversion_info` fields are always `None`
in the embedded code and are omitted). -/
inductive PaymentDetails where
  | spark (invoice_details : Option SparkInvoicePaymentDetails)
      (htlc_details : Option SparkHtlcDetails)
  | lightning (description : Option String) (invoice : String)
      (destination_pubkey : String) (htlc_details : SparkHtlcDetails)
  | withdraw (tx_id : String)
  | deposit (tx_id : String)
deriving DecidableEq, Repr

/-- Core-owned `Payment` (the always-`None` `conversion_details` omitted). -/
structure Payment where
  id : String
  payment_type : PaymentType
  status : PaymentStatus
  amount : Nat
  fees : Nat
  timestamp : Nat
  method : PaymentMethod
  details : Option PaymentDetails
deriving DecidableEq, Repr

/-- Value of `u64::MAX`. -/
def U64_MAX : Nat := 2 ^ 64 - 1

/-- Semantics of `u64::saturating_add`. -/
def u64_saturating_add (a b : Nat) : Nat := min (a + b) U64_MAX

/-- Constant `HTLC_DATA_REQUIRED_SINCE`: Feb 1, 2026 00:00:00 UTC, in seconds since the
Unix epoch. Transfers before this may lack HTLC data on the operator. -/
def HTLC_DATA_REQUIRED_SINCE : Int := 1769904000

/-- Function `derive_htlc_details_from_ssp` from `adaptors.rs`: derive HTLC details from
SSP request fields when the operator lacks the `PreimageRequest`. Only allowed
for old transfers (before `HTLC_DATA_REQUIRED_SINCE`); new transfers without
HTLC data are an error. (In the `Int` model of time the cutoff computation
`UNIX_EPOCH.checked_add` cannot overflow, so that error arm is absent.) -/
def derive_htlc_details_from_ssp (transfer : WalletTransfer)
    (payment_hash : String) (preimage : Option String) :
    Except SdkError SparkHtlcDetails :=
  let cutoff := HTLC_DATA_REQUIRED_SINCE
  let is_old : Bool := match transfer.created_at with
    | none => true
    | some t => t < cutoff
  if !is_old then
    .error (.generic
      ("Missing HTLC details for Lightning payment transfer " ++ transfer.id))
  else
    .ok {
      payment_hash := payment_hash
      preimage := preimage
      expiry_time := match transfer.expiry_time with
        | some t => if 0 ≤ t then t.toNat else 0
        | none => 0
      status := match transfer.status with
        | .completed => .preimageShared
        | .expired | .returned => .returned
        | _ => .waitingForPreimage
    }

/-- Function `reconcile_htlc_preimage` from `adaptors.rs`: if the HTLC details are
missing a preimage, fill it in from the given fallback, and if a preimage is
then present set the status to `PreimageShared`. (The Rust version mutates in
place; here it returns the updated record.) -/
def reconcile_htlc_preimage (details : SparkHtlcDetails)
    (preimage : Option String) : SparkHtlcDetails :=
  let details :=
    if details.preimage.isNone then { details with preimage := preimage }
    else details
  if details.preimage.isSome then { details with status := .preimageShared }
  else details

/-- Conversion `impl From<PreimageRequestStatus> for SparkHtlcStatus`. -/
def PreimageRequestStatus.toSparkHtlcStatus :
    PreimageRequestStatus → SparkHtlcStatus
  | .waitingForPreimage => .waitingForPreimage
  | .preimageShared => .preimageShared
  | .returned => .returned

/-- Conversion `impl TryFrom<PreimageRequest> for SparkHtlcDetails`: fails when the
expiry time is before the Unix epoch (`duration_since(UNIX_EPOCH)` errors). -/
def SparkHtlcDetails.tryFromPreimageRequest (value : PreimageRequest) :
    Except SdkError SparkHtlcDetails :=
  if 0 ≤ value.expiry_time then
    .ok {
      payment_hash := value.payment_hash
      preimage := value.preimage
      expiry_time := value.expiry_time.toNat
      status := value.status.toSparkHtlcStatus
    }
  else .error (.generic "Invalid expiry time")

/-- Function `PaymentMethod::from_transfer` from `adaptors.rs`. -/
def PaymentMethod.from_transfer (transfer : WalletTransfer) : PaymentMethod :=
  match transfer.transfer_type with
  | .preimageSwap =>
    if transfer.is_ssp_transfer then .lightning else .spark
  | .cooperativeExit => .withdraw
  | .utxoSwap => .deposit
  | .transfer => .spark
  | _ => .unknown

/-- The HTLC-details block of `PaymentDetails::from_transfer`, identical on
the Lightning receive and send arms (only the fallback hash/preimage differ):
convert the attached `PreimageRequest` and reconcile it with the fallback
preimage, or fall back to the legacy SSP derivation when no request is
attached. -/
def htlc_details_for (transfer : WalletTransfer) (fallback_hash : String)
    (fallback_preimage : Option String) : Except SdkError SparkHtlcDetails :=
  match transfer.htlc_preimage_request with
  | some req =>
    match SparkHtlcDetails.tryFromPreimageRequest req with
    | .error e => .error e
    | .ok d => .ok (reconcile_htlc_preimage d fallback_preimage)
  | none =>
    derive_htlc_details_from_ssp transfer fallback_hash fallback_preimage

/-- Function `PaymentDetails::from_transfer` from `adaptors.rs`. -/
def PaymentDetails.from_transfer (env : ParseEnv) (transfer : WalletTransfer) :
    Except SdkError (Option PaymentDetails) :=
  if transfer.is_ssp_transfer = false then
    -- Check for Spark invoice payments
    match transfer.spark_invoice with
    | some spark_invoice =>
      match env.parse_spark_address spark_invoice with
      | none => .error (.generic "Invalid spark invoice")
      | some invoice_details =>
        .ok (some (.spark
          (some { description := invoice_details.description,
                  invoice := invoice_details.invoice }) none))
    | none =>
      -- Check for Spark HTLC payments (when no user request is present)
      match transfer.htlc_preimage_request with
      | some htlc_preimage_request =>
        match SparkHtlcDetails.tryFromPreimageRequest htlc_preimage_request with
        | .error e => .error e
        | .ok d => .ok (some (.spark none (some d)))
      | none => .ok (some (.spark none none))
  else
    match transfer.user_request with
    | none => .ok none
    | some user_request =>
      match user_request with
      | .lightningReceiveRequest request =>
        match env.parse_invoice request.invoice.encoded_invoice with
        | none =>
          .error (.generic
            "Invalid invoice in SspUserRequest::LightningReceiveRequest")
        | some invoice_details =>
          match htlc_details_for transfer request.invoice.payment_hash
            request.lightning_receive_payment_preimage with
          | .error e => .error e
          | .ok htlc_details =>
            .ok (some (.lightning invoice_details.description
              request.invoice.encoded_invoice invoice_details.payee_pubkey
              htlc_details))
      | .lightningSendRequest request =>
        match env.parse_invoice request.encoded_invoice with
        | none =>
          .error (.generic
            "Invalid invoice in SspUserRequest::LightningSendRequest")
        | some invoice_details =>
          match htlc_details_for transfer invoice_details.payment_hash
            request.lightning_send_payment_preimage with
          | .error e => .error e
          | .ok htlc_details =>
            .ok (some (.lightning invoice_details.description
              request.encoded_invoice invoice_details.payee_pubkey
              htlc_details))
      | .coopExitRequest request => .ok (some (.withdraw request.coop_exit_txid))
      | .leavesSwapRequest => .ok (some (.spark none none))
      | .claimStaticDeposit request =>
        .ok (some (.deposit request.transaction_id))

/-- The initial `status` computation of `TryFrom<WalletTransfer> for Payment`
(before the Lightning-send preimage workaround and the missing-details
downgrade). -/
def payment_status_from_transfer (transfer : WalletTransfer) : PaymentStatus :=
  match transfer.status with
  | .completed => .completed
  | .senderKeyTweaked =>
    if transfer.direction = .outgoing then .completed else .pending
  | .expired | .returned => .failed
  | _ => .pending

/-- The `(fees_sat, amount_sat)` computation plus the Lightning-send preimage
status workaround of `TryFrom<WalletTransfer> for Payment`; returns
`(status, fees_sat, amount_sat)`. -/
def payment_fees_amount_status (transfer : WalletTransfer)
    (status : PaymentStatus) : PaymentStatus × Nat × Nat :=
  match transfer.user_request with
  | some user_request =>
    match user_request with
    | .lightningSendRequest r =>
      -- if we have the preimage it is not pending (upstream staleness workaround)
      let status :=
        if r.lightning_send_payment_preimage.isSome then PaymentStatus.completed
        else status
      let fee_sat := r.fee.getD 0
      (status, fee_sat, transfer.total_value_sat - fee_sat)
    | .coopExitRequest r =>
      let fee_sat := u64_saturating_add (r.fee.getD 0) (r.l1_broadcast_fee.getD 0)
      (status, fee_sat, transfer.total_value_sat - fee_sat)
    | .claimStaticDeposit r =>
      let fee_sat := r.deposit_amount.getD 0 - r.credit_amount.getD 0
      (status, fee_sat, transfer.total_value_sat)
    | _ => (status, 0, transfer.total_value_sat)
  | none => (status, 0, transfer.total_value_sat)

/-- Conversion `impl TryFrom<WalletTransfer> for Payment` from `adaptors.rs`. -/
def Payment.tryFromTransfer (env : ParseEnv) (transfer : WalletTransfer) :
    Except SdkError Payment :=
  if transfer.transfer_type ∈
      [TransferType.counterSwap, TransferType.counterSwapV3,
       TransferType.swap, TransferType.primarySwapV3] then
    .error (.generic "Swap-related transfers are not considered payments")
  else
    let payment_type := match transfer.direction with
      | .incoming => PaymentType.receive
      | .outgoing => PaymentType.send
    let s0 := payment_status_from_transfer transfer
    let sfa := payment_fees_amount_status transfer s0
    let status := sfa.1
    let fees_sat := sfa.2.1
    let amount_sat := sfa.2.2
    match PaymentDetails.from_transfer env transfer with
    | .error e => .error e
    | .ok details =>
      -- in case we have a completed status without user object we keep syncing
      let status :=
        if details.isNone ∧ status = PaymentStatus.completed ∧
            transfer.transfer_type ∈
              [TransferType.cooperativeExit, TransferType.preimageSwap,
               TransferType.utxoSwap] then
          PaymentStatus.pending
        else status
      let amount_sat :=
        if details.isNone then transfer.total_value_sat else amount_sat
      .ok {
        id := transfer.id
        payment_type := payment_type
        status := status
        amount := amount_sat
        fees := fees_sat
        timestamp := match transfer.created_at with
          | some t => if 0 ≤ t then t.toNat else 0
          | none => 0
        method := PaymentMethod.from_transfer transfer
        details := details
      }

/-!
Sync coordinator model (`sync_coordinator.rs`).

The coordinator's shared state is a `sync_running` flag and a waiter queue,
mutated only under one lock. We model executions as a small-step transition
system whose steps are exactly the lock-protected critical sections of the
code, plus the (lock-free) completion of an in-flight round:

- `add`: the body of `add_waiter` (push a waiter; claim driving duty when no
  sync is running);
- `loopIter`: one queue-manipulation step of `run_sync_loop` (either exit
  because the queue is empty, or drain the first waiter's sync-type batch and
  publish its single `SyncRequest`);
- `complete`: the in-flight round's reply arriving and the driver sending the
  round's one result to every batched sender.

Ghost instrumentation (absent from the Rust code, used only to state the
claims): `tag` records on each waiter how many rounds had started when it
registered; `drivers` counts contexts currently responsible for driving the
run loop; `published` logs the `SyncRequest`s published; `delivered` logs
which sender received which result from which round. Sync types are opaque
tags with decidable equality, modelled as `Nat`; oneshot senders and results
are likewise opaque (`Nat` and `Bool`).
-/

/-- A queued waiter (`struct Waiter`): sync type, force flag, and optional
oneshot sender (`none` for fire-and-forget requests). `tag` is ghost state:
the number of rounds started when the waiter registered. -/
structure Waiter where
  sync_type : Nat
  force : Bool
  sender : Option Nat
  tag : Nat
deriving DecidableEq, Repr

/-- A published `SyncRequest`, with the ghost round number it belongs to. -/
structure SyncRequestMsg where
  round : Nat
  sync_type : Nat
  force : Bool
deriving DecidableEq, Repr

/-- Ghost record of one result delivery to one waiter's sender. -/
structure Delivery where
  sender : Nat
  tag : Nat
  round : Nat
  result : Bool
deriving DecidableEq, Repr

/-- The batch-forming loop of `run_sync_loop` (`for waiter in
inner.waiters.drain(..)`): waiters matching `batch_type` contribute their
`force` flag and (when present) their sender to the batch; the rest are pushed
onto `remaining` in order. Accumulators mirror the Rust loop's push order. -/
def drainLoop (batch_type : Nat) (ws : List Waiter) (batch_force : Bool)
    (batch : List Waiter) (remaining : List Waiter) :
    Bool × List Waiter × List Waiter :=
  match ws with
  | [] => (batch_force, batch, remaining)
  | w :: rest =>
    if w.sync_type = batch_type then
      drainLoop batch_type rest (batch_force || w.force)
        (if w.sender.isSome then batch ++ [w] else batch) remaining
    else
      drainLoop batch_type rest batch_force batch (remaining ++ [w])

/-- The batch-taking step of `run_sync_loop`: `none` when the queue is empty
(the loop exits), otherwise the batch type (the first waiter's), the
OR-combined force flag, the batched waiters that hold senders, and the
remaining queue. -/
def formBatch : List Waiter → Option (Nat × Bool × List Waiter × List Waiter)
  | [] => none
  | w :: ws =>
    let r := drainLoop w.sync_type (w :: ws) false [] []
    some (w.sync_type, r.1, r.2.1, r.2.2)

/-- Coordinator state: `sync_running` and `waiters` are the Rust `Inner`
fields; `in_flight` holds the current round's number and batched senders while
the round's reply is awaited; the rest is ghost instrumentation. -/
structure CoordState where
  sync_running : Bool
  waiters : List Waiter
  in_flight : Option (Nat × List Waiter)
  rounds_started : Nat
  drivers : Nat
  published : List SyncRequestMsg
  delivered : List Delivery
deriving DecidableEq, Repr

/-- Function `add_waiter`: push the waiter, and if no sync is running, set
`sync_running` and return `true` (the caller becomes the loop driver). -/
def addWaiterFn (s : CoordState) (t : Nat) (f : Bool) (sid : Option Nat) :
    CoordState × Bool :=
  let w : Waiter := { sync_type := t, force := f, sender := sid,
                      tag := s.rounds_started }
  if s.sync_running then
    ({ s with waiters := s.waiters ++ [w] }, false)
  else
    ({ s with waiters := s.waiters ++ [w], sync_running := true,
              drivers := s.drivers + 1 }, true)

/-- One queue-manipulation step of `run_sync_loop`: with an empty queue the
loop clears `sync_running` and exits (the driver resigns); otherwise it takes
the first waiter's batch, starts a round and publishes its one
`SyncRequest`. -/
def loopIterFn (s : CoordState) : CoordState :=
  match formBatch s.waiters with
  | none =>
    { s with sync_running := false, drivers := s.drivers - 1 }
  | some (t, f, batch, remaining) =>
    let round := s.rounds_started + 1
    { s with waiters := remaining,
             rounds_started := round,
             in_flight := some (round, batch),
             published := s.published ++
               [{ round := round, sync_type := t, force := f }] }

/-- Completion of the in-flight round: its single result `res` is sent to
every sender in the batch (`for sender in batch_senders { sender.send(...) }`). -/
def completeFn (s : CoordState) (res : Bool) : CoordState :=
  match s.in_flight with
  | none => s
  | some rb =>
    { s with in_flight := none,
             delivered := s.delivered ++ rb.2.filterMap (fun w =>
               w.sender.map (fun sid =>
                 { sender := sid, tag := w.tag, round := rb.1,
                   result := res })) }

/-- Interleaving semantics: any task may register a waiter at any time; the
driver iterates the loop only between rounds (`in_flight = none`) and only
while `sync_running` (it holds driving duty); a round completes only while in
flight. -/
inductive CoordStep : CoordState → CoordState → Prop where
  | add (s : CoordState) (t : Nat) (f : Bool) (sid : Option Nat) :
      CoordStep s (addWaiterFn s t f sid).1
  | loopIter (s : CoordState) (hrun : s.sync_running = true)
      (hflight : s.in_flight = none) : CoordStep s (loopIterFn s)
  | complete (s : CoordState) (res : Bool) (h : s.in_flight.isSome = true) :
      CoordStep s (completeFn s res)

/-- The coordinator's initial state (`SyncCoordinator::new`). -/
def initCoordState : CoordState :=
  { sync_running := false, waiters := [], in_flight := none,
    rounds_started := 0, drivers := 0, published := [], delivered := [] }

/-- States reachable from the initial state. -/
inductive CoordReachable : CoordState → Prop where
  | init : CoordReachable initCoordState
  | step {s s' : CoordState} : CoordReachable s → CoordStep s s' →
      CoordReachable s'

/-! Helper lemmas shared by the claim theorems. -/

/-- A transfer created at or after the cutoff with no HTLC record makes
`derive_htlc_details_from_ssp` fail. -/
lemma derive_htlc_new_err (transfer : WalletTransfer) (hash : String)
    (pre : Option String) (t : Int) (hca : transfer.created_at = some t)
    (hge : HTLC_DATA_REQUIRED_SINCE ≤ t) :
    derive_htlc_details_from_ssp transfer hash pre =
      .error (.generic
        ("Missing HTLC details for Lightning payment transfer " ++
          transfer.id)) := by
  unfold derive_htlc_details_from_ssp
  simp [hca, not_lt.mpr hge]

/-- A transfer created before the cutoff (or with unknown creation time)
makes `derive_htlc_details_from_ssp` succeed with the legacy derivation. -/
lemma derive_htlc_old_ok (transfer : WalletTransfer) (hash : String)
    (pre : Option String)
    (h : transfer.created_at = none ∨
      ∃ t, transfer.created_at = some t ∧ t < HTLC_DATA_REQUIRED_SINCE) :
    derive_htlc_details_from_ssp transfer hash pre = .ok {
      payment_hash := hash
      preimage := pre
      expiry_time :=
        match transfer.expiry_time with
        | some e => if 0 ≤ e then e.toNat else 0
        | none => 0
      status :=
        match transfer.status with
        | .completed => .preimageShared
        | .expired | .returned => .returned
        | _ => .waitingForPreimage } := by
  unfold derive_htlc_details_from_ssp
  rcases h with hnone | ⟨t, hca, hlt⟩
  · simp [hnone]
  · simp [hca, hlt]

/-- Claim C1: for an SSP Lightning transfer with no attached HTLC preimage
request, HTLC details are derived from the transfer status when the creation
time is before the legacy cutoff `2026-02-01T00:00:00Z` (Unix second
`1769904000`) or unknown — `Completed ↦ PreimageShared`,
`Expired`/`Returned ↦ Returned`, anything else `↦ WaitingForPreimage`, with
the fallback preimage taken verbatim and expiry from the transfer's own
expiry time (`0` if unset or unconvertible) — while a creation time at or
after the cutoff is a hard error, both for the derivation itself and for
`PaymentDetails` reconciliation of such a transfer. -/
theorem claim_C1_legacy_cutoff (env : ParseEnv) (transfer : WalletTransfer)
    (hash : String) (pre : Option String) :
    ((transfer.created_at = none ∨
        ∃ t, transfer.created_at = some t ∧ t < HTLC_DATA_REQUIRED_SINCE) →
      derive_htlc_details_from_ssp transfer hash pre = .ok {
        payment_hash := hash
        preimage := pre
        expiry_time :=
          match transfer.expiry_time with
          | some e => if 0 ≤ e then e.toNat else 0
          | none => 0
        status :=
          if transfer.status = .completed then .preimageShared
          else if transfer.status = .expired ∨ transfer.status = .returned then
            .returned
          else .waitingForPreimage }) ∧
    (∀ t, transfer.created_at = some t → HTLC_DATA_REQUIRED_SINCE ≤ t →
      derive_htlc_details_from_ssp transfer hash pre = .error (.generic
        ("Missing HTLC details for Lightning payment transfer " ++
          transfer.id))) ∧
    (∀ t, transfer.is_ssp_transfer = true →
      transfer.htlc_preimage_request = none →
      transfer.created_at = some t → HTLC_DATA_REQUIRED_SINCE ≤ t →
      ((∃ r, transfer.user_request = some (.lightningSendRequest r)) ∨
        (∃ r, transfer.user_request = some (.lightningReceiveRequest r))) →
      ∃ e, PaymentDetails.from_transfer env transfer = .error e) := by
  refine ⟨fun h => ?_, fun t hca hge => derive_htlc_new_err _ _ _ t hca hge,
    fun t hssp hreq hca hge hur => ?_⟩
  · rw [derive_htlc_old_ok transfer hash pre h]
    cases hst : transfer.status <;> simp [hst]
  · unfold PaymentDetails.from_transfer
    rcases hur with ⟨r, hr⟩ | ⟨r, hr⟩ <;> simp [hssp, hr, htlc_details_for, hreq]
    · cases henv : env.parse_invoice r.encoded_invoice <;> simp
      rw [derive_htlc_new_err _ _ _ t hca hge]
      simp
    · cases henv : env.parse_invoice r.invoice.encoded_invoice <;> simp
      rw [derive_htlc_new_err _ _ _ t hca hge]
      simp

/-- Parser environment that fails on every input (the parsers are unused on
the code paths it is supplied to). -/
def envNone : ParseEnv := ⟨fun _ => none, fun _ => none⟩

/-- Test transfer created one second before the legacy cutoff. -/
def c1_transfer_old : WalletTransfer :=
  { id := "t1", direction := .outgoing, status := .completed,
    transfer_type := .preimageSwap, total_value_sat := 10,
    created_at := some 1769903999, expiry_time := none,
    user_request := none, spark_invoice := none,
    htlc_preimage_request := none, is_ssp_transfer := true }

/-- Test transfer created exactly at the legacy cutoff, with an SSP
Lightning-send user intent and no HTLC record. -/
def c1_transfer_new : WalletTransfer :=
  { id := "t1", direction := .outgoing, status := .completed,
    transfer_type := .preimageSwap, total_value_sat := 10,
    created_at := some 1769904000, expiry_time := none,
    user_request := some (.lightningSendRequest ⟨"inv", none, some 1⟩),
    spark_invoice := none, htlc_preimage_request := none,
    is_ssp_transfer := true }

/-- Witness for C1 at a concrete transfer: one second before the cutoff the
legacy derivation succeeds; at the cutoff it fails, and `PaymentDetails`
reconciliation of the SSP Lightning-send transfer fails with it. -/
theorem claim_C1_witness :
    derive_htlc_details_from_ssp c1_transfer_old "h" (some "p") =
      .ok { payment_hash := "h", preimage := some "p", expiry_time := 0,
            status := .preimageShared } ∧
    derive_htlc_details_from_ssp c1_transfer_new "h" (some "p") =
      .error (.generic
        "Missing HTLC details for Lightning payment transfer t1") ∧
    (∃ e, PaymentDetails.from_transfer envNone c1_transfer_new =
      .error e) := by
  refine ⟨?_, ?_, ?_⟩
  · have h := (claim_C1_legacy_cutoff envNone c1_transfer_old "h"
      (some "p")).1 (Or.inr ⟨1769903999, rfl, by decide⟩)
    simpa using h
  · have h := (claim_C1_legacy_cutoff envNone c1_transfer_new "h"
      (some "p")).2.1 1769904000 rfl (by decide)
    simpa using h
  · exact (claim_C1_legacy_cutoff envNone c1_transfer_new "h"
      (some "p")).2.2 1769904000 rfl rfl rfl (by decide)
      (Or.inl ⟨⟨"inv", none, some 1⟩, rfl⟩)

/-- Claim C2: preimage stickiness — a `SparkHtlcDetails` record whose status
is `PreimageShared` and whose preimage is present keeps both when reconciled
again with a `none` fallback preimage. -/
theorem claim_C2_preimage_sticky (d : SparkHtlcDetails)
    (hp : d.preimage.isSome = true) (_hs : d.status = .preimageShared) :
    (reconcile_htlc_preimage d none).preimage = d.preimage ∧
    (reconcile_htlc_preimage d none).status = .preimageShared := by
  cases hd : d.preimage with
  | none => rw [hd] at hp; simp at hp
  | some x => simp [reconcile_htlc_preimage, hd]

/-- Witness for C2 at a concrete record. -/
theorem claim_C2_witness :
    (reconcile_htlc_preimage
      { payment_hash := "h", preimage := some "p", expiry_time := 5,
        status := .preimageShared } none).preimage = some "p" ∧
    (reconcile_htlc_preimage
      { payment_hash := "h", preimage := some "p", expiry_time := 5,
        status := .preimageShared } none).status = .preimageShared :=
  claim_C2_preimage_sticky
    { payment_hash := "h", preimage := some "p", expiry_time := 5,
      status := .preimageShared } rfl rfl

/-- Parser environment whose invoice parser always succeeds with fixed
payee data (for exercising the SSP Lightning code paths). -/
def envOk : ParseEnv :=
  ⟨fun _ => some ⟨none, "pk", "ph"⟩, fun _ => none⟩

/-- Test HTLC preimage request carrying its own preimage while its status is
still `WaitingForPreimage`. -/
def c3_req : PreimageRequest := ⟨"h", some "aa", 10, .waitingForPreimage⟩

/-- Test Lightning-send user-intent record with no fallback preimage. -/
def c3_send_req : LightningSendRequest := ⟨"inv", none, some 100⟩

/-- Test SSP Lightning-send transfer carrying `c3_req` and no fallback
preimage on the user-intent record. -/
def c3_transfer : WalletTransfer :=
  { id := "t3", direction := .outgoing, status := .otherPending,
    transfer_type := .preimageSwap, total_value_sat := 1000,
    created_at := none, expiry_time := none,
    user_request := some (.lightningSendRequest c3_send_req),
    spark_invoice := none, htlc_preimage_request := some c3_req,
    is_ssp_transfer := true }

/-- Counterexample to C3 as stated: `c3_req` carries its own preimage with
status `WaitingForPreimage` and the fallback preimage is `none`, yet
reconciliation yields status `PreimageShared`, not the 1:1-mapped
`WaitingForPreimage` — so a request that already carries its own preimage
does not keep its 1:1-mapped status. -/
theorem claim_C3_counterexample :
    c3_req.status = PreimageRequestStatus.waitingForPreimage ∧
    c3_req.preimage.isSome = true ∧
    (c3_transfer.user_request = some (.lightningSendRequest c3_send_req) ∧
      c3_send_req.lightning_send_payment_preimage = none) ∧
    c3_transfer.htlc_preimage_request = some c3_req ∧
    PaymentDetails.from_transfer envOk c3_transfer =
      .ok (some (.lightning none "inv" "pk"
        { payment_hash := "h", preimage := some "aa", expiry_time := 10,
          status := .preimageShared })) :=
  ⟨rfl, rfl, ⟨rfl, rfl⟩, rfl, rfl⟩

/-- Claim C3 (amended): for every transfer carrying a `PreimageRequest`, the
resulting preimage is the request's own preimage when present, else the
fallback user-intent preimage; and the resulting status is the request's
status mapped 1:1 — except that it is forced to `PreimageShared` whenever
the reconciled record carries a preimage from either source (not only when
the fallback supplied it). The second conjunct ties this composition to the
`PaymentDetails` derivation on the SSP Lightning-send path. -/
theorem claim_C3_amended :
    (∀ (req : PreimageRequest) (d : SparkHtlcDetails) (fb : Option String),
      SparkHtlcDetails.tryFromPreimageRequest req = .ok d →
      (reconcile_htlc_preimage d fb).preimage = req.preimage.or fb ∧
      (reconcile_htlc_preimage d fb).status =
        (if (req.preimage.or fb).isSome then SparkHtlcStatus.preimageShared
          else req.status.toSparkHtlcStatus)) ∧
    (∀ (env : ParseEnv) (transfer : WalletTransfer)
      (req : PreimageRequest) (d : SparkHtlcDetails)
      (r : LightningSendRequest) (inv : InvoiceDetails),
      transfer.is_ssp_transfer = true →
      transfer.user_request = some (.lightningSendRequest r) →
      transfer.htlc_preimage_request = some req →
      env.parse_invoice r.encoded_invoice = some inv →
      SparkHtlcDetails.tryFromPreimageRequest req = .ok d →
      PaymentDetails.from_transfer env transfer =
        .ok (some (.lightning inv.description r.encoded_invoice
          inv.payee_pubkey
          (reconcile_htlc_preimage d
            r.lightning_send_payment_preimage)))) := by
  constructor
  · intro req d fb h
    unfold SparkHtlcDetails.tryFromPreimageRequest at h
    split at h
    · cases h
      cases hq : req.preimage with
      | some x => simp [reconcile_htlc_preimage, hq]
      | none =>
        cases hf : fb with
        | some y => simp [reconcile_htlc_preimage, hq, hf]
        | none => simp [reconcile_htlc_preimage, hq, hf]
    · cases h
  · intro env transfer req d r inv hssp hur hreq hinv hok
    unfold PaymentDetails.from_transfer
    simp [hssp, hur, htlc_details_for, hreq, hinv, hok]

/-- Witness for C3 (amended) at a concrete request and fallback. -/
theorem claim_C3_amended_witness :
    (reconcile_htlc_preimage
      { payment_hash := "h", preimage := none, expiry_time := 10,
        status := .returned } (some "bb")).preimage =
      (none : Option String).or (some "bb") ∧
    (reconcile_htlc_preimage
      { payment_hash := "h", preimage := none, expiry_time := 10,
        status := .returned } (some "bb")).status =
      (if ((none : Option String).or (some "bb")).isSome then
        SparkHtlcStatus.preimageShared
        else PreimageRequestStatus.returned.toSparkHtlcStatus) :=
  claim_C3_amended.1 ⟨"h", none, 10, .returned⟩
    { payment_hash := "h", preimage := none, expiry_time := 10,
      status := .returned } (some "bb") rfl

/-- Test preimage request whose expiry time is before the Unix epoch. -/
def c10_req : PreimageRequest := ⟨"h", none, -5, .waitingForPreimage⟩

/-- Test SSP cooperative-exit transfer that carries the pre-epoch request
`c10_req`; its conversion path never converts the HTLC record. -/
def c10_transfer : WalletTransfer :=
  { id := "t10", direction := .outgoing, status := .completed,
    transfer_type := .cooperativeExit, total_value_sat := 50000,
    created_at := none, expiry_time := none,
    user_request := some (.coopExitRequest ⟨"tx", some 200, some 150⟩),
    spark_invoice := none, htlc_preimage_request := some c10_req,
    is_ssp_transfer := true }

/-- Counterexample to C10 as stated: `c10_transfer` carries the pre-epoch
preimage request `c10_req`, yet its conversion to a `Payment` succeeds (the
SSP cooperative-exit details path ignores the HTLC record). -/
theorem claim_C10_counterexample :
    c10_transfer.htlc_preimage_request = some c10_req ∧
    c10_req.expiry_time < 0 ∧
    Payment.tryFromTransfer envNone c10_transfer =
      .ok { id := "t10", payment_type := .send, status := .completed,
            amount := 49650, fees := 350, timestamp := 0,
            method := .withdraw, details := some (.withdraw "tx") } :=
  ⟨rfl, by decide, rfl⟩

/-- A non-SSP transfer with no Spark invoice and a pre-epoch preimage request
makes the details derivation fail with the expiry error. -/
lemma from_transfer_bad_htlc_non_ssp (env : ParseEnv)
    (transfer : WalletTransfer) (req : PreimageRequest)
    (hssp : transfer.is_ssp_transfer = false)
    (hsi : transfer.spark_invoice = none)
    (hreq : transfer.htlc_preimage_request = some req)
    (hexp : req.expiry_time < 0) :
    PaymentDetails.from_transfer env transfer =
      .error (.generic "Invalid expiry time") := by
  unfold PaymentDetails.from_transfer
  simp [hssp, hsi, hreq, SparkHtlcDetails.tryFromPreimageRequest,
    not_le.mpr hexp]

/-- Claim C10 (amended): a `PreimageRequest` whose expiry time is earlier
than the Unix epoch converts to an error rather than an expiry of `0`
(unlike the legacy no-`PreimageRequest` path, which maps an unconvertible
expiry to `0`), and converting a transfer that carries such a request fails
with that error on every path that actually converts the record: a non-swap,
non-SSP transfer without a Spark invoice, and a non-swap SSP transfer with a
Lightning-send or Lightning-receive user intent and a parseable invoice. -/
theorem claim_C10_amended :
    (∀ req : PreimageRequest, req.expiry_time < 0 →
      SparkHtlcDetails.tryFromPreimageRequest req =
        .error (.generic "Invalid expiry time")) ∧
    (∀ (env : ParseEnv) (transfer : WalletTransfer) (req : PreimageRequest),
      transfer.is_ssp_transfer = false →
      transfer.spark_invoice = none →
      transfer.htlc_preimage_request = some req →
      req.expiry_time < 0 →
      transfer.transfer_type ∉
        [TransferType.counterSwap, TransferType.counterSwapV3,
         TransferType.swap, TransferType.primarySwapV3] →
      Payment.tryFromTransfer env transfer =
        .error (.generic "Invalid expiry time")) ∧
    (∀ (env : ParseEnv) (transfer : WalletTransfer) (req : PreimageRequest)
      (r : LightningSendRequest) (inv : InvoiceDetails),
      transfer.is_ssp_transfer = true →
      transfer.user_request = some (.lightningSendRequest r) →
      transfer.htlc_preimage_request = some req →
      env.parse_invoice r.encoded_invoice = some inv →
      req.expiry_time < 0 →
      transfer.transfer_type ∉
        [TransferType.counterSwap, TransferType.counterSwapV3,
         TransferType.swap, TransferType.primarySwapV3] →
      Payment.tryFromTransfer env transfer =
        .error (.generic "Invalid expiry time")) ∧
    (∀ (env : ParseEnv) (transfer : WalletTransfer) (req : PreimageRequest)
      (r : LightningReceiveRequest) (inv : InvoiceDetails),
      transfer.is_ssp_transfer = true →
      transfer.user_request = some (.lightningReceiveRequest r) →
      transfer.htlc_preimage_request = some req →
      env.parse_invoice r.invoice.encoded_invoice = some inv →
      req.expiry_time < 0 →
      transfer.transfer_type ∉
        [TransferType.counterSwap, TransferType.counterSwapV3,
         TransferType.swap, TransferType.primarySwapV3] →
      Payment.tryFromTransfer env transfer =
        .error (.generic "Invalid expiry time")) := by
  refine ⟨fun req hexp => ?_, fun env transfer req hssp hsi hreq hexp hk => ?_,
    fun env transfer req r inv hssp hur hreq hinv hexp hk => ?_,
    fun env transfer req r inv hssp hur hreq hinv hexp hk => ?_⟩
  · unfold SparkHtlcDetails.tryFromPreimageRequest
    simp [not_le.mpr hexp]
  · unfold Payment.tryFromTransfer
    simp [hk, from_transfer_bad_htlc_non_ssp env transfer req hssp hsi hreq hexp]
  · have hE : htlc_details_for transfer inv.payment_hash
        r.lightning_send_payment_preimage =
        .error (.generic "Invalid expiry time") := by
      unfold htlc_details_for
      simp [hreq, SparkHtlcDetails.tryFromPreimageRequest, not_le.mpr hexp]
    have hD : PaymentDetails.from_transfer env transfer =
        .error (.generic "Invalid expiry time") := by
      unfold PaymentDetails.from_transfer
      simp [hssp, hur, hinv, hE]
    unfold Payment.tryFromTransfer
    simp [hk, hD]
  · have hE : htlc_details_for transfer r.invoice.payment_hash
        r.lightning_receive_payment_preimage =
        .error (.generic "Invalid expiry time") := by
      unfold htlc_details_for
      simp [hreq, SparkHtlcDetails.tryFromPreimageRequest, not_le.mpr hexp]
    have hD : PaymentDetails.from_transfer env transfer =
        .error (.generic "Invalid expiry time") := by
      unfold PaymentDetails.from_transfer
      simp [hssp, hur, hinv, hE]
    unfold Payment.tryFromTransfer
    simp [hk, hD]

/-- Witness for C10 (amended) at concrete transfers carrying a pre-epoch
preimage request: a non-SSP transfer without a Spark invoice, and an SSP
Lightning-receive transfer with a parseable invoice. -/
theorem claim_C10_amended_witness :
    SparkHtlcDetails.tryFromPreimageRequest c10_req =
      .error (.generic "Invalid expiry time") ∧
    Payment.tryFromTransfer envNone
      { id := "t10b", direction := .outgoing, status := .completed,
        transfer_type := .cooperativeExit, total_value_sat := 50000,
        created_at := none, expiry_time := none, user_request := none,
        spark_invoice := none, htlc_preimage_request := some c10_req,
        is_ssp_transfer := false } =
      .error (.generic "Invalid expiry time") ∧
    Payment.tryFromTransfer envOk
      { id := "t10c", direction := .incoming, status := .completed,
        transfer_type := .preimageSwap, total_value_sat := 1000,
        created_at := none, expiry_time := none,
        user_request := some (.lightningReceiveRequest ⟨⟨"inv", "ph"⟩, none⟩),
        spark_invoice := none, htlc_preimage_request := some c10_req,
        is_ssp_transfer := true } =
      .error (.generic "Invalid expiry time") :=
  ⟨claim_C10_amended.1 c10_req (by decide),
    claim_C10_amended.2.1 envNone
      { id := "t10b", direction := .outgoing, status := .completed,
        transfer_type := .cooperativeExit, total_value_sat := 50000,
        created_at := none, expiry_time := none, user_request := none,
        spark_invoice := none, htlc_preimage_request := some c10_req,
        is_ssp_transfer := false }
      c10_req rfl rfl rfl (by decide) (by decide),
    claim_C10_amended.2.2.2 envOk
      { id := "t10c", direction := .incoming, status := .completed,
        transfer_type := .preimageSwap, total_value_sat := 1000,
        created_at := none, expiry_time := none,
        user_request := some (.lightningReceiveRequest ⟨⟨"inv", "ph"⟩, none⟩),
        spark_invoice := none, htlc_preimage_request := some c10_req,
        is_ssp_transfer := true }
      c10_req ⟨⟨"inv", "ph"⟩, none⟩ ⟨none, "pk", "ph"⟩ rfl rfl rfl rfl
      (by decide) (by decide)⟩

/-- The details derivation yields `ok none` exactly for SSP transfers with no
user-intent record. -/
lemma from_transfer_ok_none_iff (env : ParseEnv) (transfer : WalletTransfer) :
    PaymentDetails.from_transfer env transfer = .ok none ↔
      transfer.is_ssp_transfer = true ∧ transfer.user_request = none := by
  constructor
  · intro h
    unfold PaymentDetails.from_transfer at h
    by_cases hssp : transfer.is_ssp_transfer = false
    · rw [if_pos hssp] at h
      exfalso
      cases hsi : transfer.spark_invoice with
      | some s =>
        cases hpa : env.parse_spark_address s <;> simp [hsi, hpa] at h
      | none =>
        cases hreq : transfer.htlc_preimage_request with
        | some q =>
          cases htf : SparkHtlcDetails.tryFromPreimageRequest q <;>
            simp [hsi, hreq, htf] at h
        | none => simp [hsi, hreq] at h
    · rw [if_neg hssp] at h
      refine ⟨by simpa using hssp, ?_⟩
      cases hur : transfer.user_request with
      | none => rfl
      | some u =>
        exfalso
        cases u with
        | lightningReceiveRequest r =>
          cases hpi : env.parse_invoice r.invoice.encoded_invoice with
          | none => simp [hur, hpi] at h
          | some inv =>
            cases hE : htlc_details_for transfer r.invoice.payment_hash
                r.lightning_receive_payment_preimage <;>
              simp [hur, hpi, hE] at h
        | lightningSendRequest r =>
          cases hpi : env.parse_invoice r.encoded_invoice with
          | none => simp [hur, hpi] at h
          | some inv =>
            cases hE : htlc_details_for transfer inv.payment_hash
                r.lightning_send_payment_preimage <;>
              simp [hur, hpi, hE] at h
        | coopExitRequest r => simp [hur] at h
        | leavesSwapRequest => simp [hur] at h
        | claimStaticDeposit r => simp [hur] at h
  · rintro ⟨h1, h2⟩
    unfold PaymentDetails.from_transfer
    simp [h1, h2]

/-- Success shape of the transfer-to-payment conversion: it succeeds exactly
for non-swap kinds whose details derivation succeeds, and the resulting
payment is the assembled record. -/
lemma tryFromTransfer_ok_iff (env : ParseEnv) (transfer : WalletTransfer)
    (p : Payment) :
    Payment.tryFromTransfer env transfer = .ok p ↔
      (transfer.transfer_type ∉
        [TransferType.counterSwap, TransferType.counterSwapV3,
         TransferType.swap, TransferType.primarySwapV3] ∧
      ∃ details, PaymentDetails.from_transfer env transfer = .ok details ∧
        p = Payment.mk transfer.id
          (match transfer.direction with
            | .incoming => PaymentType.receive
            | .outgoing => PaymentType.send)
          (if details.isNone ∧
              (payment_fees_amount_status transfer
                (payment_status_from_transfer transfer)).1 =
                PaymentStatus.completed ∧
              transfer.transfer_type ∈
                [TransferType.cooperativeExit, TransferType.preimageSwap,
                 TransferType.utxoSwap] then
            PaymentStatus.pending
          else
            (payment_fees_amount_status transfer
              (payment_status_from_transfer transfer)).1)
          (if details.isNone then transfer.total_value_sat
          else
            (payment_fees_amount_status transfer
              (payment_status_from_transfer transfer)).2.2)
          ((payment_fees_amount_status transfer
            (payment_status_from_transfer transfer)).2.1)
          (match transfer.created_at with
            | some t => if 0 ≤ t then t.toNat else 0
            | none => 0)
          (PaymentMethod.from_transfer transfer)
          details) := by
  constructor
  · intro h
    unfold Payment.tryFromTransfer at h
    split at h
    · exact absurd h (by simp)
    next hk =>
      cases hD : PaymentDetails.from_transfer env transfer with
      | error e => rw [hD] at h; exact absurd h (by simp)
      | ok details =>
        rw [hD] at h
        simp only [Except.ok.injEq] at h
        exact ⟨hk, details, rfl, h.symm⟩
  · rintro ⟨hk, details, hD, hp⟩
    subst hp
    unfold Payment.tryFromTransfer
    rw [if_neg hk, hD]

/-- The fees/amount/status step on a transfer with no user-intent record. -/
lemma pfas_user_none (transfer : WalletTransfer) (s : PaymentStatus)
    (h : transfer.user_request = none) :
    payment_fees_amount_status transfer s =
      (s, 0, transfer.total_value_sat) := by
  unfold payment_fees_amount_status
  rw [h]

/-- The fees/amount/status step on a Lightning-send transfer. -/
lemma pfas_send (transfer : WalletTransfer) (s : PaymentStatus)
    (r : LightningSendRequest)
    (h : transfer.user_request = some (.lightningSendRequest r)) :
    payment_fees_amount_status transfer s =
      (if r.lightning_send_payment_preimage.isSome then PaymentStatus.completed
        else s,
       r.fee.getD 0, transfer.total_value_sat - r.fee.getD 0) := by
  unfold payment_fees_amount_status
  rw [h]

/-- Claim C6: for every transfer with a `LightningSendRequest` user intent
that converts successfully, the payment's fees equal the declared fee (`0` if
absent) and its amount equals `total_value_sat` minus that fee; if the send
record carries a payment preimage the status is `Completed` regardless of the
transfer status, and without a preimage a pending-variant transfer status
yields `Pending`. -/
theorem claim_C6_lightning_send (env : ParseEnv) (transfer : WalletTransfer)
    (r : LightningSendRequest) (p : Payment)
    (hU : transfer.user_request = some (.lightningSendRequest r))
    (hok : Payment.tryFromTransfer env transfer = .ok p) :
    p.fees = r.fee.getD 0 ∧
    p.amount = transfer.total_value_sat - r.fee.getD 0 ∧
    (r.lightning_send_payment_preimage.isSome = true →
      p.status = PaymentStatus.completed) ∧
    (r.lightning_send_payment_preimage = none →
      transfer.status = .otherPending →
      p.status = PaymentStatus.pending) := by
  obtain ⟨hk, details, hD, hp⟩ := (tryFromTransfer_ok_iff env transfer p).mp hok
  cases details with
  | none =>
    have h2 := ((from_transfer_ok_none_iff env transfer).mp hD).2
    rw [hU] at h2
    cases h2
  | some d =>
    subst hp
    rw [pfas_send transfer (payment_status_from_transfer transfer) r hU]
    refine ⟨rfl, rfl, fun hpre => ?_, fun hpre hst => ?_⟩
    · simp [hpre]
    · simp [hpre, payment_status_from_transfer, hst]

/-- Test SSP Lightning-send transfer for the C6 concrete scenario: total
`10_000` sat, declared fee `100`, no preimage, pending transfer status,
created one second before the legacy cutoff. -/
def c6_transfer : WalletTransfer :=
  { id := "t6", direction := .outgoing, status := .otherPending,
    transfer_type := .preimageSwap, total_value_sat := 10000,
    created_at := some 1769903999, expiry_time := none,
    user_request := some (.lightningSendRequest ⟨"inv", none, some 100⟩),
    spark_invoice := none, htlc_preimage_request := none,
    is_ssp_transfer := true }

/-- Payment produced for `c6_transfer`. -/
def c6_payment : Payment :=
  { id := "t6", payment_type := .send, status := .pending, amount := 9900,
    fees := 100, timestamp := 1769903999, method := .lightning,
    details := some (.lightning none "inv" "pk"
      { payment_hash := "ph", preimage := none, expiry_time := 0,
        status := .waitingForPreimage }) }

/-- Witness for C6 at the spec's concrete scenario: the conversion yields
`Payment{status: Pending, amount: 9_900, fees: 100}`. -/
theorem claim_C6_witness :
    Payment.tryFromTransfer envOk c6_transfer = .ok c6_payment ∧
    c6_payment.fees = 100 ∧ c6_payment.amount = 9900 ∧
    c6_payment.status = PaymentStatus.pending := by
  have h := claim_C6_lightning_send envOk c6_transfer ⟨"inv", none, some 100⟩
    c6_payment rfl rfl
  exact ⟨rfl, by simpa using h.1, by simpa using h.2.1, h.2.2.2 rfl rfl⟩

/-- Claim C7: when the details derivation yields nothing while the computed
status is `Completed` and the transfer kind is `CooperativeExit`,
`PreimageSwap` or `UtxoSwap`, the payment status is downgraded to `Pending`
and the amount is reset to the transfer's raw `total_value_sat`. -/
theorem claim_C7_missing_details_downgrade (env : ParseEnv)
    (transfer : WalletTransfer) (p : Payment)
    (hok : Payment.tryFromTransfer env transfer = .ok p)
    (hD : PaymentDetails.from_transfer env transfer = .ok none)
    (hS : payment_status_from_transfer transfer = PaymentStatus.completed)
    (hK : transfer.transfer_type ∈
      [TransferType.cooperativeExit, TransferType.preimageSwap,
       TransferType.utxoSwap]) :
    p.status = PaymentStatus.pending ∧
    p.amount = transfer.total_value_sat := by
  obtain ⟨hk, details, hD2, hp⟩ := (tryFromTransfer_ok_iff env transfer p).mp hok
  rw [hD] at hD2
  cases hD2
  subst hp
  have hU : transfer.user_request = none :=
    ((from_transfer_ok_none_iff env transfer).mp hD).2
  rw [pfas_user_none transfer (payment_status_from_transfer transfer) hU]
  simp [hS, hK]

/-- Test SSP cooperative-exit transfer whose network status is completed but
whose details cannot be derived (no user-intent record). -/
def c7_transfer : WalletTransfer :=
  { id := "t7", direction := .outgoing, status := .completed,
    transfer_type := .cooperativeExit, total_value_sat := 77,
    created_at := none, expiry_time := none, user_request := none,
    spark_invoice := none, htlc_preimage_request := none,
    is_ssp_transfer := true }

/-- Payment produced for `c7_transfer`. -/
def c7_payment : Payment :=
  { id := "t7", payment_type := .send, status := .pending, amount := 77,
    fees := 0, timestamp := 0, method := .withdraw, details := none }

/-- Witness for C7 at a concrete transfer. -/
theorem claim_C7_witness :
    Payment.tryFromTransfer envNone c7_transfer = .ok c7_payment ∧
    c7_payment.status = PaymentStatus.pending ∧
    c7_payment.amount = 77 := by
  have h := claim_C7_missing_details_downgrade envNone c7_transfer c7_payment
    rfl rfl rfl (by decide)
  exact ⟨rfl, h.1, by simpa using h.2⟩

/-- The condition of the Lightning-send staleness workaround: the transfer
carries a `LightningSendRequest` whose payment preimage is present. -/
def lightning_send_preimage_present (transfer : WalletTransfer) : Bool :=
  match transfer.user_request with
  | some (.lightningSendRequest r) => r.lightning_send_payment_preimage.isSome
  | _ => false

/-- The status component of the fees/amount/status step equals the input
status, forced to `Completed` exactly under the staleness workaround. -/
lemma pfas_fst (transfer : WalletTransfer) (s : PaymentStatus) :
    (payment_fees_amount_status transfer s).1 =
      if lightning_send_preimage_present transfer then PaymentStatus.completed
      else s := by
  unfold payment_fees_amount_status lightning_send_preimage_present
  cases hur : transfer.user_request with
  | none => rfl
  | some u => cases u <;> simp

/-- Test transfer: outgoing `SenderKeyTweaked` SSP preimage-swap with no
user-intent record, so its details derivation yields nothing. -/
def c8_transfer : WalletTransfer :=
  { id := "t8", direction := .outgoing, status := .senderKeyTweaked,
    transfer_type := .preimageSwap, total_value_sat := 5,
    created_at := none, expiry_time := none, user_request := none,
    spark_invoice := none, htlc_preimage_request := none,
    is_ssp_transfer := true }

/-- Payment produced for `c8_transfer`. -/
def c8_payment : Payment :=
  { id := "t8", payment_type := .send, status := .pending, amount := 5,
    fees := 0, timestamp := 0, method := .lightning, details := none }

/-- Test transfer: incoming `SenderKeyTweaked` non-SSP transfer carrying a
`LightningSendRequest` whose preimage is present. -/
def c8b_transfer : WalletTransfer :=
  { id := "t8b", direction := .incoming, status := .senderKeyTweaked,
    transfer_type := .transfer, total_value_sat := 10,
    created_at := none, expiry_time := none,
    user_request := some (.lightningSendRequest ⟨"inv", some "pre", some 1⟩),
    spark_invoice := none, htlc_preimage_request := none,
    is_ssp_transfer := false }

/-- Payment produced for `c8b_transfer`. -/
def c8b_payment : Payment :=
  { id := "t8b", payment_type := .receive, status := .completed, amount := 9,
    fees := 1, timestamp := 0, method := .spark,
    details := some (.spark none none) }

/-- Counterexample to C8 as stated, in both directions: the outgoing
`SenderKeyTweaked` transfer `c8_transfer` yields a `Pending` payment (the
missing-details downgrade overrides the completion signal), and the incoming
`SenderKeyTweaked` transfer `c8b_transfer` yields a `Completed` payment (the
Lightning-send preimage workaround overrides the pending mapping). -/
theorem claim_C8_counterexample :
    c8_transfer.direction = .outgoing ∧
    c8_transfer.status = .senderKeyTweaked ∧
    Payment.tryFromTransfer envNone c8_transfer = .ok c8_payment ∧
    c8_payment.status = PaymentStatus.pending ∧
    c8b_transfer.direction = .incoming ∧
    c8b_transfer.status = .senderKeyTweaked ∧
    Payment.tryFromTransfer envNone c8b_transfer = .ok c8b_payment ∧
    c8b_payment.status = PaymentStatus.completed :=
  ⟨rfl, rfl, rfl, rfl, rfl, rfl, rfl, rfl⟩

/-- Claim C8 (amended): an outgoing `SenderKeyTweaked` transfer converts with
status `Completed`, unless it is an SSP transfer with no user-intent record
of a kind with asynchronous details (`CooperativeExit`/`PreimageSwap`/
`UtxoSwap`), in which case the missing-details rule downgrades it to
`Pending`; an incoming `SenderKeyTweaked` transfer converts with status
`Pending`, unless it carries a `LightningSendRequest` whose preimage is
present, in which case the staleness workaround forces `Completed`. -/
theorem claim_C8_amended (env : ParseEnv) (transfer : WalletTransfer)
    (p : Payment)
    (hok : Payment.tryFromTransfer env transfer = .ok p)
    (hS : transfer.status = .senderKeyTweaked) :
    (transfer.direction = .outgoing →
      p.status =
        (if transfer.is_ssp_transfer = true ∧ transfer.user_request = none ∧
            transfer.transfer_type ∈
              [TransferType.cooperativeExit, TransferType.preimageSwap,
               TransferType.utxoSwap] then
          PaymentStatus.pending
        else PaymentStatus.completed)) ∧
    (transfer.direction = .incoming →
      p.status =
        (if lightning_send_preimage_present transfer = true then
          PaymentStatus.completed
        else PaymentStatus.pending)) := by
  obtain ⟨hk, details, hD, hp⟩ := (tryFromTransfer_ok_iff env transfer p).mp hok
  have hiff : details = none ↔
      (transfer.is_ssp_transfer = true ∧ transfer.user_request = none) := by
    constructor
    · intro h
      subst h
      exact (from_transfer_ok_none_iff env transfer).mp hD
    · intro h2
      have h3 := (from_transfer_ok_none_iff env transfer).mpr h2
      rw [hD] at h3
      exact Except.ok.inj h3
  subst hp
  constructor
  · intro hd
    have hs0 : payment_status_from_transfer transfer =
        PaymentStatus.completed := by
      unfold payment_status_from_transfer
      rw [hS]
      simp [hd]
    have hfst : (payment_fees_amount_status transfer
        (payment_status_from_transfer transfer)).1 = PaymentStatus.completed := by
      rw [pfas_fst, hs0]
      split <;> rfl
    cases details with
    | none =>
      have h2 := hiff.mp rfl
      simp only [Option.isNone_none, hfst, true_and]
      by_cases hkmem : transfer.transfer_type ∈
        [TransferType.cooperativeExit, TransferType.preimageSwap,
         TransferType.utxoSwap]
      · rw [if_pos hkmem, if_pos ⟨h2.1, h2.2, hkmem⟩]
      · rw [if_neg hkmem, if_neg (fun hc => hkmem hc.2.2)]
    | some d =>
      have habs : ¬(transfer.is_ssp_transfer = true ∧
          transfer.user_request = none ∧
          transfer.transfer_type ∈
            [TransferType.cooperativeExit, TransferType.preimageSwap,
             TransferType.utxoSwap]) := by
        intro hc
        exact Option.noConfusion (hiff.mpr ⟨hc.1, hc.2.1⟩)
      simp [hfst]
      rw [if_neg]
      intro hc
      exact habs ⟨hc.1, hc.2.1, by rcases hc.2.2 with h | h | h <;> simp [h]⟩
  · intro hd
    have hs0 : payment_status_from_transfer transfer =
        PaymentStatus.pending := by
      unfold payment_status_from_transfer
      rw [hS]
      simp [hd]
    have hfst : (payment_fees_amount_status transfer
        (payment_status_from_transfer transfer)).1 =
        if lightning_send_preimage_present transfer = true then
          PaymentStatus.completed
        else PaymentStatus.pending := by
      rw [pfas_fst, hs0]
    cases details with
    | none =>
      have h2 := hiff.mp rfl
      have hpre : lightning_send_preimage_present transfer = false := by
        unfold lightning_send_preimage_present
        rw [h2.2]
      have hfst2 : (payment_fees_amount_status transfer
          (payment_status_from_transfer transfer)).1 =
          PaymentStatus.pending := by
        rw [pfas_fst, hs0]
        simp [hpre]
      simp [hfst2, hpre]
    | some d =>
      simp [hfst]

/-- Witness for C8 (amended): a plain outgoing `SenderKeyTweaked` Spark
transfer converts with status `Completed`. -/
theorem claim_C8_amended_witness :
    Payment.tryFromTransfer envNone
      { id := "t8w", direction := .outgoing, status := .senderKeyTweaked,
        transfer_type := .transfer, total_value_sat := 3,
        created_at := none, expiry_time := none, user_request := none,
        spark_invoice := none, htlc_preimage_request := none,
        is_ssp_transfer := false } =
      .ok { id := "t8w", payment_type := .send, status := .completed,
            amount := 3, fees := 0, timestamp := 0, method := .spark,
            details := some (.spark none none) } ∧
    ({ id := "t8w", payment_type := .send, status := .completed,
       amount := 3, fees := 0, timestamp := 0, method := .spark,
       details := some (.spark none none) } : Payment).status =
      PaymentStatus.completed := by
  refine ⟨rfl, ?_⟩
  have h := (claim_C8_amended envNone
    { id := "t8w", direction := .outgoing, status := .senderKeyTweaked,
      transfer_type := .transfer, total_value_sat := 3,
      created_at := none, expiry_time := none, user_request := none,
      spark_invoice := none, htlc_preimage_request := none,
      is_ssp_transfer := false }
    { id := "t8w", payment_type := .send, status := .completed,
      amount := 3, fees := 0, timestamp := 0, method := .spark,
      details := some (.spark none none) } rfl rfl).1 rfl
  exact h

/-- Declarative characterization of the batch-forming loop: the force flag is
the OR over the matching waiters, the batch is the matching waiters holding
senders in order, and the remainder is the non-matching waiters in order. -/
lemma drainLoop_eq (t : Nat) (ws : List Waiter) (f0 : Bool)
    (b0 r0 : List Waiter) :
    drainLoop t ws f0 b0 r0 =
      (f0 || (ws.filter (fun w => w.sync_type == t)).any (fun w => w.force),
       b0 ++ (ws.filter (fun w => w.sync_type == t)).filter
         (fun w => w.sender.isSome),
       r0 ++ ws.filter (fun w => !(w.sync_type == t))) := by
  induction ws generalizing f0 b0 r0 with
  | nil => simp [drainLoop]
  | cons w rest ih =>
    unfold drainLoop
    by_cases hw : w.sync_type = t
    · rw [if_pos hw, ih]
      cases hs : w.sender with
      | none => simp [hw, hs, Bool.or_assoc]
      | some sid => simp [hw, hs, Bool.or_assoc]
    · rw [if_neg hw, ih]
      simp [hw]

/-- Closed form of the batch-taking step on a non-empty queue. -/
lemma formBatch_cons (w : Waiter) (ws : List Waiter) :
    formBatch (w :: ws) = some (w.sync_type,
      ((w :: ws).filter (fun x => x.sync_type == w.sync_type)).any
        (fun x => x.force),
      ((w :: ws).filter (fun x => x.sync_type == w.sync_type)).filter
        (fun x => x.sender.isSome),
      (w :: ws).filter (fun x => !(x.sync_type == w.sync_type))) := by
  have h0 : formBatch (w :: ws) = some (w.sync_type,
      (drainLoop w.sync_type (w :: ws) false [] []).1,
      (drainLoop w.sync_type (w :: ws) false [] []).2.1,
      (drainLoop w.sync_type (w :: ws) false [] []).2.2) := rfl
  rw [h0, drainLoop_eq]
  simp

/-- The batch-taking step yields `none` only on the empty queue. -/
lemma formBatch_eq_none {ws : List Waiter} (h : formBatch ws = none) :
    ws = [] := by
  cases ws with
  | nil => rfl
  | cons w rest => rw [formBatch_cons] at h; cases h

/-- Global invariant of the coordinator's reachable states. -/
structure CoordInv (s : CoordState) : Prop where
  idle_empty : s.sync_running = false → s.waiters = []
  driver_count : s.drivers = if s.sync_running then 1 else 0
  waiter_tags : ∀ w ∈ s.waiters, w.tag ≤ s.rounds_started
  flight_round : ∀ r b, s.in_flight = some (r, b) →
    r = s.rounds_started ∧ ∀ w ∈ b, w.tag < r
  delivered_fresh : ∀ d ∈ s.delivered,
    d.tag < d.round ∧ d.round ≤ s.rounds_started
  flight_new : ∀ r b, s.in_flight = some (r, b) →
    ∀ d ∈ s.delivered, d.round < r
  result_unique : ∀ d1 ∈ s.delivered, ∀ d2 ∈ s.delivered,
    d1.round = d2.round → d1.result = d2.result
  published_rounds : s.published.map (fun m => m.round) =
    (List.range s.rounds_started).map (fun n => n + 1)

/-- The initial state satisfies the invariant. -/
lemma coordInv_init : CoordInv initCoordState := by
  constructor <;> simp [initCoordState]

/-- Every coordinator step preserves the invariant. -/
lemma coordInv_step {s s' : CoordState} (hinv : CoordInv s)
    (hstep : CoordStep s s') : CoordInv s' := by
  cases hstep with
  | add t f sid =>
    have hW : (addWaiterFn s t f sid).1.waiters =
        s.waiters ++ [⟨t, f, sid, s.rounds_started⟩] := by
      unfold addWaiterFn
      by_cases hr : s.sync_running = true <;> simp [hr]
    have hRun : (addWaiterFn s t f sid).1.sync_running = true := by
      unfold addWaiterFn
      by_cases hr : s.sync_running = true <;> simp [hr]
    have hDr : (addWaiterFn s t f sid).1.drivers = 1 := by
      unfold addWaiterFn
      by_cases hr : s.sync_running = true <;> simp [hr]
      · have h := hinv.driver_count
        rw [hr] at h
        simpa using h
      · have hb : s.sync_running = false := by
          revert hr
          cases s.sync_running <;> simp
        have h := hinv.driver_count
        rw [hb] at h
        simpa using h
    have hF : (addWaiterFn s t f sid).1.in_flight = s.in_flight := by
      unfold addWaiterFn
      by_cases hr : s.sync_running = true <;> simp [hr]
    have hR : (addWaiterFn s t f sid).1.rounds_started = s.rounds_started := by
      unfold addWaiterFn
      by_cases hr : s.sync_running = true <;> simp [hr]
    have hP : (addWaiterFn s t f sid).1.published = s.published := by
      unfold addWaiterFn
      by_cases hr : s.sync_running = true <;> simp [hr]
    have hD : (addWaiterFn s t f sid).1.delivered = s.delivered := by
      unfold addWaiterFn
      by_cases hr : s.sync_running = true <;> simp [hr]
    refine ⟨?_, ?_, ?_, ?_, ?_, ?_, ?_, ?_⟩
    · rw [hRun]
      intro h
      cases h
    · rw [hDr, hRun]
      rfl
    · rw [hW, hR]
      intro x hx
      rcases List.mem_append.mp hx with hx | hx
      · exact hinv.waiter_tags x hx
      · simp at hx
        subst hx
        exact le_refl _
    · rw [hF, hR]
      exact hinv.flight_round
    · rw [hD, hR]
      exact hinv.delivered_fresh
    · rw [hF, hD]
      exact hinv.flight_new
    · rw [hD]
      exact hinv.result_unique
    · rw [hP, hR]
      exact hinv.published_rounds
  | loopIter hrun hflight =>
    cases hws : s.waiters with
    | nil =>
      have hfn : loopIterFn s = { s with
          sync_running := false,
          drivers := s.drivers - 1 } := by
        unfold loopIterFn
        rw [hws]
        rfl
      rw [hfn]
      exact ⟨fun _ => hws, (by rw [hinv.driver_count, hrun]; simp),
        (by rw [hws]; intro w hw; cases hw), hinv.flight_round,
        hinv.delivered_fresh, hinv.flight_new, hinv.result_unique,
        hinv.published_rounds⟩
    | cons w rest =>
      have hfn : loopIterFn s = { s with
          waiters := (w :: rest).filter
            (fun x => !(x.sync_type == w.sync_type)),
          rounds_started := s.rounds_started + 1,
          in_flight := some (s.rounds_started + 1,
            ((w :: rest).filter (fun x => x.sync_type == w.sync_type)).filter
              (fun x => x.sender.isSome)),
          published := s.published ++ [SyncRequestMsg.mk
            (s.rounds_started + 1) w.sync_type
            (((w :: rest).filter (fun x => x.sync_type == w.sync_type)).any
              (fun x => x.force))] } := by
        unfold loopIterFn
        rw [hws, formBatch_cons]
      have hW : (loopIterFn s).waiters = (w :: rest).filter
          (fun x => !(x.sync_type == w.sync_type)) := by rw [hfn]
      have hR : (loopIterFn s).rounds_started = s.rounds_started + 1 := by
        rw [hfn]
      have hF : (loopIterFn s).in_flight = some (s.rounds_started + 1,
          ((w :: rest).filter (fun x => x.sync_type == w.sync_type)).filter
            (fun x => x.sender.isSome)) := by rw [hfn]
      have hP : (loopIterFn s).published = s.published ++ [SyncRequestMsg.mk
          (s.rounds_started + 1) w.sync_type
          (((w :: rest).filter (fun x => x.sync_type == w.sync_type)).any
            (fun x => x.force))] := by rw [hfn]
      have hD : (loopIterFn s).delivered = s.delivered := by rw [hfn]
      have hRun : (loopIterFn s).sync_running = s.sync_running := by rw [hfn]
      have hDr : (loopIterFn s).drivers = s.drivers := by rw [hfn]
      refine ⟨?_, ?_, ?_, ?_, ?_, ?_, ?_, ?_⟩
      · rw [hRun, hrun]
        intro h
        cases h
      · rw [hDr, hRun]
        exact hinv.driver_count
      · rw [hW, hR]
        intro x hx
        have hx2 : x ∈ s.waiters := by
          rw [hws]
          exact List.mem_of_mem_filter hx
        exact Nat.le_succ_of_le (hinv.waiter_tags x hx2)
      · rw [hF, hR]
        intro r b hfl
        simp only [Option.some.injEq, Prod.mk.injEq] at hfl
        refine ⟨hfl.1.symm, ?_⟩
        intro x hx
        rw [← hfl.2] at hx
        have hx2 : x ∈ s.waiters := by
          rw [hws]
          exact List.mem_of_mem_filter (List.mem_of_mem_filter hx)
        rw [← hfl.1]
        exact Nat.lt_succ_of_le (hinv.waiter_tags x hx2)
      · rw [hD, hR]
        intro d hd
        exact ⟨(hinv.delivered_fresh d hd).1,
          Nat.le_succ_of_le (hinv.delivered_fresh d hd).2⟩
      · rw [hF, hD]
        intro r b hfl d hd
        simp only [Option.some.injEq, Prod.mk.injEq] at hfl
        rw [← hfl.1]
        exact Nat.lt_succ_of_le (hinv.delivered_fresh d hd).2
      · rw [hD]
        exact hinv.result_unique
      · rw [hP, hR]
        simp only [List.map_append, hinv.published_rounds, List.range_succ,
          List.map_cons, List.map_nil]
  | complete res hfl =>
    obtain ⟨⟨r, b⟩, hflv⟩ := Option.isSome_iff_exists.mp hfl
    have hround := hinv.flight_round r b hflv
    have hmem : ∀ d : Delivery,
        d ∈ b.filterMap (fun w => w.sender.map (fun sid =>
          { sender := sid, tag := w.tag, round := r, result := res })) →
        d.tag < r ∧ d.round = r ∧ d.result = res := by
      intro d hd
      obtain ⟨w, hwb, hwd⟩ := List.mem_filterMap.mp hd
      obtain ⟨sid, hsid, hmap⟩ := Option.map_eq_some'.mp hwd
      rw [← hmap]
      exact ⟨hround.2 w hwb, rfl, rfl⟩
    have hfn : completeFn s res = { s with
        in_flight := none,
        delivered := s.delivered ++ b.filterMap (fun w =>
          w.sender.map (fun sid =>
            { sender := sid, tag := w.tag, round := r, result := res })) } := by
      unfold completeFn
      rw [hflv]
    have hW : (completeFn s res).waiters = s.waiters := by rw [hfn]
    have hR : (completeFn s res).rounds_started = s.rounds_started := by
      rw [hfn]
    have hF : (completeFn s res).in_flight = none := by rw [hfn]
    have hP : (completeFn s res).published = s.published := by rw [hfn]
    have hD : (completeFn s res).delivered = s.delivered ++ b.filterMap
        (fun w => w.sender.map (fun sid =>
          { sender := sid, tag := w.tag, round := r, result := res })) := by
      rw [hfn]
    have hRun : (completeFn s res).sync_running = s.sync_running := by
      rw [hfn]
    have hDr : (completeFn s res).drivers = s.drivers := by rw [hfn]
    refine ⟨?_, ?_, ?_, ?_, ?_, ?_, ?_, ?_⟩
    · rw [hRun, hW]
      exact hinv.idle_empty
    · rw [hDr, hRun]
      exact hinv.driver_count
    · rw [hW, hR]
      exact hinv.waiter_tags
    · rw [hF]
      intro r2 b2 h
      cases h
    · rw [hD, hR]
      intro d hd
      rcases List.mem_append.mp hd with hd | hd
      · exact hinv.delivered_fresh d hd
      · obtain ⟨h1, h2, _⟩ := hmem d hd
        rw [h2]
        exact ⟨h1, le_of_eq hround.1⟩
    · rw [hF]
      intro r2 b2 h
      cases h
    · rw [hD]
      intro d1 hd1 d2 hd2 heq
      rcases List.mem_append.mp hd1 with hd1 | hd1 <;>
        rcases List.mem_append.mp hd2 with hd2 | hd2
      · exact hinv.result_unique d1 hd1 d2 hd2 heq
      · have hlt := hinv.flight_new r b hflv d1 hd1
        rw [heq, (hmem d2 hd2).2.1] at hlt
        exact absurd rfl (Nat.ne_of_lt hlt)
      · have hlt := hinv.flight_new r b hflv d2 hd2
        rw [← heq, (hmem d1 hd1).2.1] at hlt
        exact absurd rfl (Nat.ne_of_lt hlt)
      · rw [(hmem d1 hd1).2.2, (hmem d2 hd2).2.2]
    · rw [hP, hR]
      exact hinv.published_rounds

/-- Every reachable coordinator state satisfies the invariant. -/
lemma coordInv_reachable {s : CoordState} (h : CoordReachable s) :
    CoordInv s := by
  induction h with
  | init => exact coordInv_init
  | step _ hstep ih => exact coordInv_step ih hstep

/-- Closed form of one batch-taking loop iteration on a non-empty queue. -/
lemma loopIterFn_cons (s : CoordState) (w : Waiter) (ws : List Waiter)
    (hws : s.waiters = w :: ws) :
    loopIterFn s = { s with
      waiters := (w :: ws).filter (fun x => !(x.sync_type == w.sync_type)),
      rounds_started := s.rounds_started + 1,
      in_flight := some (s.rounds_started + 1,
        ((w :: ws).filter (fun x => x.sync_type == w.sync_type)).filter
          (fun x => x.sender.isSome)),
      published := s.published ++ [SyncRequestMsg.mk
        (s.rounds_started + 1) w.sync_type
        (((w :: ws).filter (fun x => x.sync_type == w.sync_type)).any
          (fun x => x.force))] } := by
  unfold loopIterFn
  rw [hws, formBatch_cons]

/-- Claim C4: a round started on a non-empty queue takes exactly the queued
waiters whose `sync_type` equals the first-queued waiter's, publishes exactly
one `SyncRequest` for them whose force flag is the OR of their force flags,
leaves the other waiters queued in their original order (so types are never
merged), delivers the round's result to every batched waiter holding a
sender, and (on every reachable state) publishes exactly one request per
round and delivers the same result to all waiters of one round. -/
theorem claim_C4_batch_formation :
    (∀ (w : Waiter) (ws : List Waiter),
      formBatch (w :: ws) = some (w.sync_type,
        ((w :: ws).filter (fun x => x.sync_type == w.sync_type)).any
          (fun x => x.force),
        ((w :: ws).filter (fun x => x.sync_type == w.sync_type)).filter
          (fun x => x.sender.isSome),
        (w :: ws).filter (fun x => !(x.sync_type == w.sync_type)))) ∧
    (∀ (s : CoordState) (w : Waiter) (ws : List Waiter),
      s.waiters = w :: ws →
      (loopIterFn s).published = s.published ++ [SyncRequestMsg.mk
        (s.rounds_started + 1) w.sync_type
        (((w :: ws).filter (fun x => x.sync_type == w.sync_type)).any
          (fun x => x.force))] ∧
      (loopIterFn s).waiters =
        (w :: ws).filter (fun x => !(x.sync_type == w.sync_type)) ∧
      (loopIterFn s).in_flight = some (s.rounds_started + 1,
        ((w :: ws).filter (fun x => x.sync_type == w.sync_type)).filter
          (fun x => x.sender.isSome))) ∧
    (∀ (s : CoordState) (res : Bool) (r : Nat) (b : List Waiter),
      s.in_flight = some (r, b) → ∀ w ∈ b, ∀ sid, w.sender = some sid →
      Delivery.mk sid w.tag r res ∈ (completeFn s res).delivered) ∧
    (∀ s : CoordState, CoordReachable s →
      s.published.map (fun m => m.round) =
        (List.range s.rounds_started).map (fun n => n + 1)) ∧
    (∀ s : CoordState, CoordReachable s →
      ∀ d1 ∈ s.delivered, ∀ d2 ∈ s.delivered,
        d1.round = d2.round → d1.result = d2.result) := by
  refine ⟨formBatch_cons, ?_, ?_,
    fun s h => (coordInv_reachable h).published_rounds,
    fun s h => (coordInv_reachable h).result_unique⟩
  · intro s w ws hws
    rw [loopIterFn_cons s w ws hws]
    exact ⟨rfl, rfl, rfl⟩
  · intro s res r b hfl w hw sid hsid
    have hfn : completeFn s res = { s with
        in_flight := none,
        delivered := s.delivered ++ b.filterMap (fun x =>
          x.sender.map (fun i =>
            { sender := i, tag := x.tag, round := r, result := res })) } := by
      unfold completeFn
      rw [hfl]
    rw [hfn]
    show Delivery.mk sid w.tag r res ∈ s.delivered ++ b.filterMap (fun x =>
      x.sender.map (fun i =>
        { sender := i, tag := x.tag, round := r, result := res }))
    refine List.mem_append.mpr (Or.inr (List.mem_filterMap.mpr ⟨w, hw, ?_⟩))
    rw [hsid]
    rfl

/-- Witness for C4: a concrete batch formation (type-1 waiters coalesced with
OR-combined force, the type-2 waiter deferred in order) and a concrete
delivery of a round's result to its batched sender. -/
theorem claim_C4_witness :
    formBatch [Waiter.mk 1 true (some 5) 0, Waiter.mk 2 false (some 6) 0,
      Waiter.mk 1 false none 0] =
      some (1, true, [Waiter.mk 1 true (some 5) 0],
        [Waiter.mk 2 false (some 6) 0]) ∧
    Delivery.mk 7 0 1 true ∈ (completeFn (loopIterFn
      (addWaiterFn initCoordState 1 false (some 7)).1) true).delivered := by
  constructor
  · have h := claim_C4_batch_formation.1 (Waiter.mk 1 true (some 5) 0)
      [Waiter.mk 2 false (some 6) 0, Waiter.mk 1 false none 0]
    simpa using h
  · exact claim_C4_batch_formation.2.2.1
      (loopIterFn (addWaiterFn initCoordState 1 false (some 7)).1) true 1
      [Waiter.mk 1 false (some 7) 0] rfl (Waiter.mk 1 false (some 7) 0)
      (by simp) 7 rfl

/-- Claim C5: post-call freshness — in every reachable coordinator state,
every delivered result was produced by a round whose start is strictly later
than the number of rounds already started when the receiving waiter
registered (`tag`); equivalently, a waiter registered while a round is in
flight (or at any time) is only ever served by a round taken from the queue
after its registration, never by the in-flight round, and an in-flight
batch only contains waiters registered before the round started. -/
theorem claim_C5_post_call_freshness (s : CoordState)
    (h : CoordReachable s) :
    (∀ d ∈ s.delivered, d.tag < d.round) ∧
    (∀ r b, s.in_flight = some (r, b) → ∀ w ∈ b, w.tag < r) := by
  have hinv := coordInv_reachable h
  exact ⟨fun d hd => (hinv.delivered_fresh d hd).1,
    fun r b hfl w hw => (hinv.flight_round r b hfl).2 w hw⟩

/-- Witness for C5 on the concrete execution add → take batch → complete:
the delivered result belongs to round `1`, started after the waiter's
registration tag `0`. -/
theorem claim_C5_witness :
    (Delivery.mk 7 0 1 true).tag < (Delivery.mk 7 0 1 true).round := by
  have hreach : CoordReachable (completeFn (loopIterFn
      (addWaiterFn initCoordState 1 false (some 7)).1) true) :=
    CoordReachable.step (CoordReachable.step (CoordReachable.step
      CoordReachable.init (CoordStep.add initCoordState 1 false (some 7)))
      (CoordStep.loopIter (addWaiterFn initCoordState 1 false (some 7)).1
        rfl rfl))
      (CoordStep.complete
        (loopIterFn (addWaiterFn initCoordState 1 false (some 7)).1) true rfl)
  exact (claim_C5_post_call_freshness _ hreach).1 (Delivery.mk 7 0 1 true)
    (by simp [completeFn, loopIterFn, addWaiterFn, initCoordState, formBatch,
      drainLoop])

/-- The queue/driver invariant of claim C9: the running flag is cleared only
with an empty waiter queue, and exactly one context is responsible for
driving the run loop whenever the flag is set. -/
def coordQueueInv (s : CoordState) : Prop :=
  (s.sync_running = false → s.waiters = []) ∧
  s.drivers = (if s.sync_running then 1 else 0)

/-- Claim C9: every lock-protected transition of the coordinator preserves
the invariant that `sync_running` is false only when the waiter queue is
empty and that exactly one context drives the run loop while it is true; the
invariant holds in every reachable state, so no waiter can sit in the queue
with no round scheduled to serve it. -/
theorem claim_C9_queue_invariant :
    (∀ s s2 : CoordState, CoordStep s s2 → coordQueueInv s →
      coordQueueInv s2) ∧
    (∀ s : CoordState, CoordReachable s → coordQueueInv s) := by
  constructor
  · intro s s2 hstep h
    obtain ⟨h1, h2⟩ := h
    cases hstep with
    | add t f sid =>
      have hRun : (addWaiterFn s t f sid).1.sync_running = true := by
        unfold addWaiterFn
        by_cases hr : s.sync_running = true <;> simp [hr]
      have hDr : (addWaiterFn s t f sid).1.drivers = 1 := by
        unfold addWaiterFn
        by_cases hr : s.sync_running = true <;> simp [hr]
        · rw [hr] at h2
          simpa using h2
        · have hb : s.sync_running = false := by
            revert hr
            cases s.sync_running <;> simp
          rw [hb] at h2
          simpa using h2
      exact ⟨fun hc => absurd hc (by rw [hRun]; simp),
        by rw [hDr, hRun]; rfl⟩
    | loopIter hrun hflight =>
      cases hws : s.waiters with
      | nil =>
        have hfn : loopIterFn s = { s with
            sync_running := false,
            drivers := s.drivers - 1 } := by
          unfold loopIterFn
          rw [hws]
          rfl
        rw [hfn]
        have hd1 : s.drivers = 1 := by
          rw [hrun] at h2
          simpa using h2
        exact ⟨fun _ => hws, by rw [hd1]; rfl⟩
      | cons w rest =>
        have hRun : (loopIterFn s).sync_running = s.sync_running := by
          rw [loopIterFn_cons s w rest hws]
        have hW : (loopIterFn s).waiters =
            (w :: rest).filter (fun x => !(x.sync_type == w.sync_type)) := by
          rw [loopIterFn_cons s w rest hws]
        have hDr : (loopIterFn s).drivers = s.drivers := by
          rw [loopIterFn_cons s w rest hws]
        exact ⟨fun hc => absurd hc (by rw [hRun, hrun]; simp),
          by rw [hDr, hRun]; exact h2⟩
    | complete res hfl =>
      obtain ⟨⟨r, b⟩, hflv⟩ := Option.isSome_iff_exists.mp hfl
      have hRun : (completeFn s res).sync_running = s.sync_running := by
        unfold completeFn
        rw [hflv]
      have hW : (completeFn s res).waiters = s.waiters := by
        unfold completeFn
        rw [hflv]
      have hDr : (completeFn s res).drivers = s.drivers := by
        unfold completeFn
        rw [hflv]
      exact ⟨fun hc => by rw [hW]; exact h1 (by rw [← hRun]; exact hc),
        by rw [hDr, hRun]; exact h2⟩
  · intro s h
    have hinv := coordInv_reachable h
    exact ⟨hinv.idle_empty, hinv.driver_count⟩

/-- Witness for C9: the invariant holds initially and is preserved by a
concrete `add_waiter` step. -/
theorem claim_C9_witness :
    coordQueueInv (addWaiterFn initCoordState 2 true none).1 ∧
    coordQueueInv initCoordState :=
  ⟨claim_C9_queue_invariant.1 initCoordState
      (addWaiterFn initCoordState 2 true none).1
      (CoordStep.add initCoordState 2 true none)
      (claim_C9_queue_invariant.2 initCoordState CoordReachable.init),
    claim_C9_queue_invariant.2 initCoordState CoordReachable.init⟩

end SparkSdk
